import Mathlib

/-!
Verification of the AquaSentinel complaint-lifecycle core.

The data model is embedded from `database/schema.sql` (enum types, complaint
columns and their defaults, the complaint-number trigger), the sample data from
`database/seed.sql`, and the officer-dashboard SLA countdown from
`frontend/src/app/dashboard/page.tsx`.  The backend services (severity scorer,
complaint state machine, escalation scheduler) are not part of the repository
sources; where a claim needs them they are modelled from the specification and
marked as such in their doc comments.  Timestamps are integers counting
seconds; `day` is one day in seconds.
-/

namespace AquaSentinel

/-- `water_body_type` enum from `database/schema.sql`. -/
inductive WaterBodyType
  | lake | river | canal
deriving DecidableEq, Repr

/-- `violation_type` enum from `database/schema.sql`. -/
inductive ViolationType
  | construction | debris_dumping | land_filling | pollution | unknown
deriving DecidableEq, Repr

/-- `urgency_level` enum from `database/schema.sql`. -/
inductive UrgencyLevel
  | low | medium | high
deriving DecidableEq, Repr

/-- `severity_priority` enum from `database/schema.sql`. -/
inductive SeverityPriority
  | low | medium | critical
deriving DecidableEq, Repr

/-- `complaint_status` enum from `database/schema.sql` lines 16-19: eight
values, in the declared order. -/
inductive ComplaintStatus
  | submitted | validated | ai_processed | assigned
  | in_progress | resolved | rejected | escalated
deriving DecidableEq, Repr

/-- `escalation_level` enum from `database/schema.sql`. -/
inductive EscalationLevel
  | level_1 | level_2 | level_3
deriving DecidableEq, Repr

/-- The values of the `complaint_status` enum exactly as declared in
`database/schema.sql`. -/
def complaintStatusValues : List ComplaintStatus :=
  [.submitted, .validated, .ai_processed, .assigned,
   .in_progress, .resolved, .rejected, .escalated]

/-- One day, in seconds. -/
def day : Int := 86400

/-- Severity band from the Severity Priority table of the API documentation
(70-100 critical, 40-69 medium, 0-39 low), matching the spec's banding. -/
def severityBand (score : Int) : SeverityPriority :=
  if score ≥ 70 then .critical
  else if score ≥ 40 then .medium
  else .low

/-- SLA duration in days per band, from the Severity Priority table of the API
documentation (critical 3 days, medium 7 days, low 10 days). -/
def slaDays : SeverityPriority → Int
  | .critical => 3
  | .medium => 7
  | .low => 10

/-- Classifier urgency mapped to a 0-100 factor.  Modelled from the spec:
the severity scorer itself is not in the repository sources; the spec maps
urgency low/medium/high to 20/60/100. -/
def urgencyFactor : UrgencyLevel → ℚ
  | .low => 20
  | .medium => 60
  | .high => 100

/-- Environmental Severity Index.  Modelled from the spec: the scorer service
is not in the repository sources.  Per the spec each factor is normalized to
[0,100], the weights are 0.40 (violation base), 0.20 (urgency), 0.15
(sensitivity), 0.15 (density), 0.10 (environmental impact); the weighted sum
is rounded to the nearest integer and clamped to [0,100]. -/
def esiScore (base urgency sensitivity density impact : ℚ) : Int :=
  max 0 (min 100
    (round ((40 / 100) * base + (20 / 100) * urgency + (15 / 100) * sensitivity
      + (15 / 100) * density + (10 / 100) * impact)))

/-- A `complaints` row, embedded from the column list of
`database/schema.sql` lines 67-103 (geometry and media columns aside). -/
structure Complaint where
  complaintNumber : Option String
  citizenId : String
  waterBodyId : Option String
  category : WaterBodyType
  description : Option String
  latitude : ℚ
  longitude : ℚ
  aiViolationType : ViolationType
  aiConfidenceScore : ℚ
  aiUrgency : UrgencyLevel
  aiProcessedAt : Option Int
  severityScore : Int
  severityPriority : SeverityPriority
  status : ComplaintStatus
  assignedOfficerId : Option String
  slaDeadline : Option Int
  resolvedAt : Option Int
  resolutionNotes : Option String
  escalationLevel : Option EscalationLevel
  escalatedAt : Option Int
  createdAt : Int
deriving DecidableEq, Repr

/-- A freshly inserted complaint row carrying only the citizen-supplied
fields, every other column at its schema DEFAULT
(`database/schema.sql`: status `submitted`, severity 0, priority `low`,
`sla_deadline`, officer, escalation and resolution columns NULL). -/
def newComplaintRow (citizen : String) (cat : WaterBodyType)
    (lat lon : ℚ) (descr : Option String) (now : Int) : Complaint :=
  { complaintNumber := none
    citizenId := citizen
    waterBodyId := none
    category := cat
    description := descr
    latitude := lat
    longitude := lon
    aiViolationType := .unknown
    aiConfidenceScore := 0
    aiUrgency := .low
    aiProcessedAt := none
    severityScore := 0
    severityPriority := .low
    status := .submitted
    assignedOfficerId := none
    slaDeadline := none
    resolvedAt := none
    resolutionNotes := none
    escalationLevel := none
    escalatedAt := none
    createdAt := now }

/-- Seed complaint `AQS-20260225-00001` from `database/seed.sql` lines 83-96:
construction at Bellandur Lake, severity 88 critical, status `assigned`,
deadline `NOW() + INTERVAL '3 days'`.  `now` is the seed-script `NOW()`. -/
def seedComplaint1 (now : Int) : Complaint :=
  { complaintNumber := some "AQS-20260225-00001"
    citizenId := "a0000000-0000-0000-0000-000000000004"
    waterBodyId := some "b0000000-0000-0000-0000-000000000001"
    category := .lake
    description := some "Large-scale construction activity observed near Bellandur Lake shore. Foundation digging in progress."
    latitude := 129400 / 10000
    longitude := 776600 / 10000
    aiViolationType := .construction
    aiConfidenceScore := 92 / 100
    aiUrgency := .high
    aiProcessedAt := some now
    severityScore := 88
    severityPriority := .critical
    status := .assigned
    assignedOfficerId := some "a0000000-0000-0000-0000-000000000002"
    slaDeadline := some (now + 3 * day)
    resolvedAt := none
    resolutionNotes := none
    escalationLevel := none
    escalatedAt := none
    createdAt := now }

/-- Seed complaint `AQS-20260225-00002` from `database/seed.sql` lines 97-110:
debris dumping at Ulsoor Lake, severity 62 medium, status `in_progress`,
deadline `NOW() + INTERVAL '7 days'`. -/
def seedComplaint2 (now : Int) : Complaint :=
  { complaintNumber := some "AQS-20260225-00002"
    citizenId := "a0000000-0000-0000-0000-000000000004"
    waterBodyId := some "b0000000-0000-0000-0000-000000000002"
    category := .lake
    description := some "Debris and garbage dumped near Ulsoor Lake. Affecting water quality."
    latitude := 129840 / 10000
    longitude := 776200 / 10000
    aiViolationType := .debris_dumping
    aiConfidenceScore := 85 / 100
    aiUrgency := .medium
    aiProcessedAt := some now
    severityScore := 62
    severityPriority := .medium
    status := .in_progress
    assignedOfficerId := some "a0000000-0000-0000-0000-000000000002"
    slaDeadline := some (now + 7 * day)
    resolvedAt := none
    resolutionNotes := none
    escalationLevel := none
    escalatedAt := none
    createdAt := now }

/-- Seed complaint `AQS-20260225-00003` from `database/seed.sql` lines
111-124: pollution at Hebbal Lake, severity 35 low, status `ai_processed`,
NULL officer, yet deadline `NOW() + INTERVAL '10 days'` already set. -/
def seedComplaint3 (now : Int) : Complaint :=
  { complaintNumber := some "AQS-20260225-00003"
    citizenId := "a0000000-0000-0000-0000-000000000004"
    waterBodyId := some "b0000000-0000-0000-0000-000000000003"
    category := .lake
    description := some "Minor pollution spotted near Hebbal Lake inlet. Appears to be sewage runoff."
    latitude := 130400 / 10000
    longitude := 775920 / 10000
    aiViolationType := .pollution
    aiConfidenceScore := 78 / 100
    aiUrgency := .low
    aiProcessedAt := some now
    severityScore := 35
    severityPriority := .low
    status := .ai_processed
    assignedOfficerId := none
    slaDeadline := some (now + 10 * day)
    resolvedAt := none
    resolutionNotes := none
    escalationLevel := none
    escalatedAt := none
    createdAt := now }

/-- The three complaints of `database/seed.sql`, `now` being the seed-script
`NOW()`. -/
def seedComplaints (now : Int) : List Complaint :=
  [seedComplaint1 now, seedComplaint2 now, seedComplaint3 now]

/-- A `complaint_status_log` row from `database/schema.sql` lines 177-185. -/
structure StatusLogEntry where
  oldStatus : Option ComplaintStatus
  newStatus : ComplaintStatus
  changedBy : Option String
  notes : Option String
  changedAt : Int
deriving DecidableEq, Repr

/-- Error raised on a status transition not in the transition table. -/
inductive TransitionError
  | invalidTransition
deriving DecidableEq, Repr

/-- Modelled from the spec: the complaint state machine is not in the
repository sources.  The transition table of spec §4.3:
submitted→validated, validated→ai_processed, ai_processed→assigned,
assigned→in_progress, in_progress→resolved, in_progress→rejected,
assigned→rejected; everything else is invalid. -/
def validTransition : ComplaintStatus → ComplaintStatus → Bool
  | .submitted, .validated => true
  | .validated, .ai_processed => true
  | .ai_processed, .assigned => true
  | .assigned, .in_progress => true
  | .in_progress, .resolved => true
  | .in_progress, .rejected => true
  | .assigned, .rejected => true
  | _, _ => false

/-- Modelled from the spec: the complaint state machine is not in the
repository sources.  A valid transition updates the status, appends exactly
one status-log entry, and on `ai_processed → assigned` sets the SLA deadline
from the current instant and the band when no deadline is set yet (the
architecture pipeline allows the deadline to have been set already at the
SLA-assignment step; an existing deadline is never altered).  An invalid
transition fails with `InvalidTransition`. -/
def applyTransition (c : Complaint) (log : List StatusLogEntry)
    (target : ComplaintStatus) (actor : String) (now : Int) :
    Except TransitionError (Complaint × List StatusLogEntry) :=
  if validTransition c.status target then
    .ok ({ c with
            status := target
            slaDeadline :=
              if c.status = .ai_processed ∧ target = .assigned ∧
                  c.slaDeadline = none then
                some (now + slaDays c.severityPriority * day)
              else c.slaDeadline },
      log ++ [{ oldStatus := some c.status, newStatus := target,
                changedBy := some actor, notes := none, changedAt := now }])
  else .error .invalidTransition

/-- The system-level transition step: on failure the stored state is kept
unchanged and the error is surfaced to the caller. -/
def stepComplaint (st : Complaint × List StatusLogEntry)
    (target : ComplaintStatus) (actor : String) (now : Int) :
    (Complaint × List StatusLogEntry) × Option TransitionError :=
  match applyTransition st.1 st.2 target actor now with
  | .ok st' => (st', none)
  | .error e => (st, some e)

/-- Modelled from the spec: the scorer service is not in the repository
sources.  Re-scoring recomputes the severity score and its band; the spec's
invariant is that it never touches an existing SLA deadline. -/
def rescore (c : Complaint) (newScore : Int) : Complaint :=
  { c with severityScore := newScore, severityPriority := severityBand newScore }

/-- Escalation level as an ordinal, NULL being level 0. -/
def levelNat : Option EscalationLevel → Nat
  | none => 0
  | some .level_1 => 1
  | some .level_2 => 2
  | some .level_3 => 3

/-- An `escalation_history` row from `database/schema.sql` lines 130-139,
doubling as the event emitted to the notification collaborator. -/
structure EscalationRecord where
  fromLevel : Option EscalationLevel
  toLevel : EscalationLevel
  reason : String
  escalatedAt : Int
deriving DecidableEq, Repr

/-- Modelled from the spec: the escalation scheduler is not in the repository
sources.  One scheduler pass over one complaint, per spec §4.5 and the
Escalation Levels table of the API documentation: only complaints in
`assigned`/`in_progress` with a non-null deadline are considered;
level 1 when `deadline − 1 day ≤ now < deadline` and the level is none,
level 2 when `deadline ≤ now < deadline + 2 days` and the level is below 2,
level 3 when `now ≥ deadline + 2 days` and the level is below 3; each raise
appends one history record; otherwise nothing changes. -/
def escalationPass (now : Int) (c : Complaint) :
    Complaint × List EscalationRecord :=
  if c.status = .assigned ∨ c.status = .in_progress then
    match c.slaDeadline with
    | some d =>
      if d - day ≤ now ∧ now < d ∧ c.escalationLevel = none then
        ({ c with escalationLevel := some .level_1, escalatedAt := some now },
          [{ fromLevel := c.escalationLevel, toLevel := .level_1,
             reason := "warning", escalatedAt := now }])
      else if d ≤ now ∧ now < d + 2 * day ∧ levelNat c.escalationLevel < 2 then
        ({ c with escalationLevel := some .level_2, escalatedAt := some now },
          [{ fromLevel := c.escalationLevel, toLevel := .level_2,
             reason := "supervisor escalation", escalatedAt := now }])
      else if d + 2 * day ≤ now ∧ levelNat c.escalationLevel < 3 then
        ({ c with escalationLevel := some .level_3, escalatedAt := some now },
          [{ fromLevel := c.escalationLevel, toLevel := .level_3,
             reason := "admin escalation", escalatedAt := now }])
      else (c, [])
    | none => (c, [])
  else (c, [])

/-- Any number of scheduler passes, at the given sequence of times. -/
def runPasses (times : List Int) (c : Complaint) : Complaint :=
  times.foldl (fun a t => (escalationPass t a).1) c

/-- Result of `getSLACountdown` from
`frontend/src/app/dashboard/page.tsx` lines 332-355, one constructor per
return site: `OVERDUE` when `diff ≤ 0`, a days/hours countdown when at least
one full day remains, an hours countdown otherwise. -/
inductive SLACountdown
  | overdue
  | daysRemaining (days remainingHours : Int)
  | hoursRemaining (hours : Int)
deriving DecidableEq, Repr

/-- The `urgent` flag of each `getSLACountdown` return site. -/
def slaUrgent : SLACountdown → Bool
  | .overdue => true
  | .daysRemaining d _ => d ≤ 1
  | .hoursRemaining _ => true

/-- `getSLACountdown` from `frontend/src/app/dashboard/page.tsx` lines
332-355.  Times are in milliseconds as in the JS `Date.getTime`;
`diff = deadline − now`, OVERDUE when `diff ≤ 0`, otherwise whole hours and
days are taken by flooring (the quantities are positive, so integer division
is `Math.floor`). -/
def getSLACountdown (nowMs deadlineMs : Int) : SLACountdown :=
  let diff := deadlineMs - nowMs
  if diff ≤ 0 then .overdue
  else
    let hours := diff / 3600000
    let days := hours / 24
    let remainingHours := hours % 24
    if days > 0 then .daysRemaining days remainingHours
    else .hoursRemaining hours

/-- Decimal rendering of a natural number, most significant digit first: the
model of the `::TEXT` and `TO_CHAR(NOW(), 'YYYYMMDD')` conversions used in
`generate_complaint_number`. -/
def natRepr (n : Nat) : String :=
  if n = 0 then "0" else ⟨((Nat.digits 10 n).reverse.map Nat.digitChar)⟩

/-- Model of `LPAD(s, 5, '0')`: left-pads to five characters, truncating to
the first five when the input is longer (PostgreSQL semantics). -/
def lpad5 (s : String) : String :=
  if 5 ≤ s.length then ⟨s.data.take 5⟩
  else ⟨List.replicate (5 - s.length) '0' ++ s.data⟩

/-- The LPADded sequence component of a generated complaint number, for a
trigger that saw `count` visible rows (`seq_num = count + 1`). -/
def seqComponent (count : Nat) : String :=
  lpad5 (natRepr (count + 1))

/-- `generate_complaint_number` from `database/schema.sql` lines 213-222:
`seq_num := COUNT(*) + 1` over the complaints visible to the trigger, and the
number is `'AQS-' || TO_CHAR(NOW(), 'YYYYMMDD') || '-' ||
LPAD(seq_num::TEXT, 5, '0')`. -/
def generateComplaintNumber (today : Nat) (visibleCount : Nat) : String :=
  "AQS-" ++ natRepr today ++ "-" ++ seqComponent visibleCount

/-- Serial insertion: the trigger of each insert sees every previously
inserted row, so `COUNT(*)` is the length of the list so far. -/
def serialInsert (today : Nat) (nums : List String) : List String :=
  nums ++ [generateComplaintNumber today nums.length]

/-- Two inserts running concurrently: under READ COMMITTED both triggers
evaluate `SELECT COUNT(*) + 1 FROM complaints` against the same snapshot, so
both compute the sequence number from the same row count. -/
def concurrentInsertPair (today : Nat) (nums : List String) : List String :=
  nums ++ [generateComplaintNumber today nums.length,
           generateComplaintNumber today nums.length]

/-- Numeric value of a decimal digit character. -/
def charVal (c : Char) : Nat := c.toNat - 48

/-- Parse a list of decimal digit characters, most significant first. -/
def parseNat (l : List Char) : Nat :=
  l.foldl (fun a c => 10 * a + charVal c) 0

/-- `trg_complaint_number` from `database/schema.sql` lines 224-228: BEFORE
INSERT, `WHEN (NEW.complaint_number IS NULL OR NEW.complaint_number = '')`,
execute `generate_complaint_number`, which assigns only
`NEW.complaint_number`. -/
def applyComplaintNumberTrigger (today visibleCount : Nat)
    (row : Complaint) : Complaint :=
  if row.complaintNumber = none ∨ row.complaintNumber = some "" then
    { row with
        complaintNumber := some (generateComplaintNumber today visibleCount) }
  else row

/-! ## Theorems -/

theorem esiScore_nonneg (base urgency sensitivity density impact : ℚ) :
    0 ≤ esiScore base urgency sensitivity density impact :=
  le_max_left 0 _

theorem esiScore_le_100 (base urgency sensitivity density impact : ℚ) :
    esiScore base urgency sensitivity density impact ≤ 100 := by
  unfold esiScore
  rcases le_total (0 : Int)
      (min 100 (round ((40 / 100) * base + (20 / 100) * urgency
        + (15 / 100) * sensitivity + (15 / 100) * density
        + (10 / 100) * impact))) with h | h
  · rw [max_eq_right h]; exact min_le_left _ _
  · rw [max_eq_left h]; omega

/-- C1: for every severity-scoring input the severity score is an integer in
[0,100], and the priority band is the total deterministic function of the
score: `≥ 70 → critical`, `40 ≤ score < 70 → medium`, `< 40 → low`; in
particular 39 maps to low, 40 and 69 to medium, 70 to critical, and every
integer in [0,100] maps to exactly one band. -/
theorem severity_score_range_and_band
    (base urgency sensitivity density impact : ℚ)
    (_hb : 0 ≤ base ∧ base ≤ 100) (_hu : 0 ≤ urgency ∧ urgency ≤ 100)
    (_hs : 0 ≤ sensitivity ∧ sensitivity ≤ 100)
    (_hd : 0 ≤ density ∧ density ≤ 100) (_hi : 0 ≤ impact ∧ impact ≤ 100) :
    (0 ≤ esiScore base urgency sensitivity density impact ∧
      esiScore base urgency sensitivity density impact ≤ 100) ∧
    severityBand 39 = .low ∧ severityBand 40 = .medium ∧
    severityBand 69 = .medium ∧ severityBand 70 = .critical ∧
    (∀ s : Int, 0 ≤ s → s ≤ 100 →
      ((severityBand s = .critical ↔ 70 ≤ s) ∧
       (severityBand s = .medium ↔ 40 ≤ s ∧ s < 70) ∧
       (severityBand s = .low ↔ s < 40))) := by
  refine ⟨⟨esiScore_nonneg .., esiScore_le_100 ..⟩, by decide, by decide,
    by decide, by decide, ?_⟩
  intro s _ _
  unfold severityBand
  split_ifs with h1 h2 <;>
    refine ⟨⟨fun _ => ?_, fun _ => ?_⟩, ⟨fun h => ?_, fun h => ?_⟩,
      ⟨fun h => ?_, fun h => ?_⟩⟩ <;> first | omega | rfl | simp_all

/-- Witness for C1 at the spec's end-to-end example: construction base 100,
high urgency, sensitivity 85, density and impact at saturation. -/
theorem severity_score_range_and_band_witness :
    ((0 : ℚ) ≤ 100 ∧ (100 : ℚ) ≤ 100) ∧ ((0 : ℚ) ≤ 85 ∧ (85 : ℚ) ≤ 100) ∧
    ((0 ≤ esiScore 100 100 85 100 100 ∧ esiScore 100 100 85 100 100 ≤ 100) ∧
      severityBand 39 = .low ∧ severityBand 40 = .medium ∧
      severityBand 69 = .medium ∧ severityBand 70 = .critical ∧
      (∀ s : Int, 0 ≤ s → s ≤ 100 →
        ((severityBand s = .critical ↔ 70 ≤ s) ∧
         (severityBand s = .medium ↔ 40 ≤ s ∧ s < 70) ∧
         (severityBand s = .low ↔ s < 40)))) :=
  ⟨by norm_num, by norm_num,
    severity_score_range_and_band 100 100 85 100 100
      ⟨by norm_num, by norm_num⟩ ⟨by norm_num, by norm_num⟩
      ⟨by norm_num, by norm_num⟩ ⟨by norm_num, by norm_num⟩
      ⟨by norm_num, by norm_num⟩⟩

/-- C6 counterexample: the `complaint_status` enum of `database/schema.sql`
declares `escalated` as a status value a complaint can hold, and it has eight
values, not seven. -/
theorem complaint_status_escalated_is_status :
    ComplaintStatus.escalated ∈ complaintStatusValues ∧
    complaintStatusValues.length ≠ 7 := by decide

/-- C6 amended: a complaint's status is one of exactly the eight distinct
enum values declared in the schema — the seven of the claim plus
`escalated` — and the schema additionally carries the orthogonal nullable
`escalation_level` column, so an `in_progress` complaint can simultaneously
hold an escalation level. -/
theorem complaint_status_eight_values :
    complaintStatusValues.length = 8 ∧ complaintStatusValues.Nodup ∧
    (∀ s : ComplaintStatus, s ∈ complaintStatusValues) ∧
    ComplaintStatus.escalated ∈ complaintStatusValues ∧
    (∃ c : Complaint, c.status = .in_progress ∧
      c.escalationLevel = some .level_2) := by
  refine ⟨by decide, by decide, fun s => by cases s <;> decide, by decide, ?_⟩
  exact ⟨{ seedComplaint2 0 with escalationLevel := some .level_2 }, rfl, rfl⟩

/-- C9: the officer dashboard's `getSLACountdown` returns the urgent OVERDUE
result exactly when the deadline is less than or equal to the current time
(so at the exact deadline instant it is OVERDUE), and for every strictly
future deadline it returns one of the remaining-time results instead. -/
theorem getSLACountdown_overdue_iff (nowMs deadlineMs : Int) :
    (getSLACountdown nowMs deadlineMs = .overdue ↔ deadlineMs ≤ nowMs) ∧
    slaUrgent .overdue = true := by
  refine ⟨?_, rfl⟩
  simp only [getSLACountdown]
  split_ifs <;> simp_all

theorem escalationPass_status (now : Int) (c : Complaint) :
    (escalationPass now c).1.status = c.status := by
  rcases hdl : c.slaDeadline with _ | d <;>
    simp only [escalationPass, hdl] <;> split_ifs <;> rfl

theorem escalationPass_slaDeadline (now : Int) (c : Complaint) :
    (escalationPass now c).1.slaDeadline = c.slaDeadline := by
  rcases hdl : c.slaDeadline with _ | d <;>
    simp only [escalationPass, hdl] <;> split_ifs <;> simp [hdl]

/-- C8: any attempted status transition not permitted by the transition table
fails with `InvalidTransition` and is a complete no-op: the stored complaint
and status log are unchanged and no log entry is appended. -/
theorem invalid_transition_rejected_noop
    (st : Complaint × List StatusLogEntry) (target : ComplaintStatus)
    (actor : String) (now : Int)
    (h : validTransition st.1.status target = false) :
    applyTransition st.1 st.2 target actor now =
      .error .invalidTransition ∧
    stepComplaint st target actor now = (st, some .invalidTransition) := by
  simp [stepComplaint, applyTransition, h]

/-- Witness for C8: a direct `submitted → resolved` attempt on a fresh
complaint fails with `InvalidTransition` and leaves state and log unchanged. -/
theorem invalid_transition_rejected_noop_witness :
    validTransition (newComplaintRow "cit" .lake 0 0 none 0, ([] : List StatusLogEntry)).1.status .resolved = false ∧
    (applyTransition (newComplaintRow "cit" .lake 0 0 none 0) [] .resolved "officer" 5 =
        .error .invalidTransition ∧
      stepComplaint (newComplaintRow "cit" .lake 0 0 none 0, []) .resolved "officer" 5 =
        ((newComplaintRow "cit" .lake 0 0 none 0, []), some .invalidTransition)) :=
  ⟨rfl, invalid_transition_rejected_noop
    (newComplaintRow "cit" .lake 0 0 none 0, []) .resolved "officer" 5 rfl⟩

/-- C2 counterexample: seed complaint AQS-20260225-00003 carries an SLA
deadline of its creation instant plus its band's 10 days although it is
`ai_processed` with no assigned officer — it never entered `assigned`, so its
deadline is not anchored at an assignment moment. -/
theorem sla_deadline_not_assignment_anchored :
    (seedComplaint3 0).slaDeadline =
      some ((seedComplaint3 0).createdAt +
        slaDays (seedComplaint3 0).severityPriority * day) ∧
    (seedComplaint3 0).status = .ai_processed ∧
    (seedComplaint3 0).assignedOfficerId = none :=
  ⟨rfl, rfl, rfl⟩

/-- C2 amended: the SLA deadline equals the SLA-assignment instant — the
AI-processing/scoring step, which in the seed data coincides with row
creation and may precede officer assignment — plus exactly 3, 7 or 10 days
for the critical, medium or low band; the `ai_processed → assigned`
transition sets it from the assignment instant when it is still unset; and
once set, re-scoring, later transitions and escalation passes never change
it. -/
theorem sla_deadline_per_band_and_immutable :
    (∀ now : Int, ∀ c ∈ seedComplaints now,
      c.slaDeadline = some (now + slaDays c.severityPriority * day) ∧
      c.aiProcessedAt = some now) ∧
    (∀ (c : Complaint) (log : List StatusLogEntry) (actor : String)
      (now : Int), c.status = .ai_processed → c.slaDeadline = none →
      ∃ st', applyTransition c log .assigned actor now = .ok st' ∧
        st'.1.slaDeadline = some (now + slaDays c.severityPriority * day)) ∧
    (∀ (c : Complaint) (d : Int), c.slaDeadline = some d →
      (∀ s : Int, (rescore c s).slaDeadline = some d) ∧
      (∀ (log : List StatusLogEntry) (target : ComplaintStatus)
        (actor : String) (now : Int) (st' : Complaint × List StatusLogEntry),
        applyTransition c log target actor now = .ok st' →
        st'.1.slaDeadline = some d) ∧
      (∀ now : Int, (escalationPass now c).1.slaDeadline = some d)) := by
  refine ⟨?_, ?_, ?_⟩
  · intro now c hc
    simp only [seedComplaints, List.mem_cons, List.mem_singleton,
      List.not_mem_nil, or_false] at hc
    rcases hc with rfl | rfl | rfl <;> exact ⟨rfl, rfl⟩
  · intro c log actor now hst hdl
    unfold applyTransition
    rw [hst]
    simp [validTransition, hdl]
  · intro c d hdl
    refine ⟨fun s => hdl, ?_, fun now => ?_⟩
    · intro log target actor now st' happ
      unfold applyTransition at happ
      split_ifs at happ with hv hset
      · rw [hdl] at hset
        simp at hset
      · cases happ
        simp [hdl]
    · rw [escalationPass_slaDeadline, hdl]

/-- Witness for C2: the amended statement applied at seed `NOW() = 0`, at an
`ai_processed` complaint without a deadline, and at seed complaint 1, which
has its deadline set. -/
theorem sla_deadline_per_band_and_immutable_witness :
    (seedComplaint1 0 ∈ seedComplaints 0 ∧
      ((seedComplaint1 0).slaDeadline = some (0 + slaDays (seedComplaint1 0).severityPriority * day) ∧
        (seedComplaint1 0).aiProcessedAt = some 0)) ∧
    (({ seedComplaint3 0 with slaDeadline := none } : Complaint).status = .ai_processed ∧
      ({ seedComplaint3 0 with slaDeadline := none } : Complaint).slaDeadline = none ∧
      (∃ st', applyTransition { seedComplaint3 0 with slaDeadline := none } [] .assigned "svc" 7 = .ok st' ∧
        st'.1.slaDeadline = some (7 + slaDays ({ seedComplaint3 0 with slaDeadline := none } : Complaint).severityPriority * day))) ∧
    ((seedComplaint1 0).slaDeadline = some (3 * day) ∧
      (∀ s : Int, (rescore (seedComplaint1 0) s).slaDeadline = some (3 * day))) := by
  refine ⟨⟨by simp [seedComplaints], sla_deadline_per_band_and_immutable.1 0
      (seedComplaint1 0) (by simp [seedComplaints])⟩,
    ⟨rfl, rfl, sla_deadline_per_band_and_immutable.2.1
      { seedComplaint3 0 with slaDeadline := none } [] "svc" 7 rfl rfl⟩,
    ⟨by decide, fun s => (sla_deadline_per_band_and_immutable.2.2
      (seedComplaint1 0) (3 * day) (by decide)).1 s⟩⟩

/-- C5 counterexample: seed complaint AQS-20260225-00003 has not yet entered
`assigned` (its status is `ai_processed`), yet its SLA deadline is already
set. -/
theorem pre_assignment_deadline_set :
    ((seedComplaint3 0).status = .submitted ∨
      (seedComplaint3 0).status = .validated ∨
      (seedComplaint3 0).status = .ai_processed) ∧
    (seedComplaint3 0).slaDeadline ≠ none := by
  exact ⟨Or.inr (Or.inr rfl), by decide⟩

/-- C5 amended: a freshly submitted complaint (schema column defaults) has no
SLA deadline, but the deadline may be set before the complaint enters
`assigned`: the architecture pipeline performs SLA assignment at the
AI-processing step, and seed complaint AQS-20260225-00003 is `ai_processed`
and unassigned with its deadline already set to its processing instant plus
its band's 10 days. -/
theorem sla_deadline_set_at_processing :
    (∀ (cit : String) (cat : WaterBodyType) (lat lon : ℚ)
      (descr : Option String) (now : Int),
      (newComplaintRow cit cat lat lon descr now).slaDeadline = none ∧
      (newComplaintRow cit cat lat lon descr now).status = .submitted) ∧
    (∀ now : Int,
      (seedComplaint3 now).status = .ai_processed ∧
      (seedComplaint3 now).assignedOfficerId = none ∧
      (seedComplaint3 now).aiProcessedAt = some now ∧
      (seedComplaint3 now).slaDeadline =
        some (now + slaDays (seedComplaint3 now).severityPriority * day)) :=
  ⟨fun _ _ _ _ _ _ => ⟨rfl, rfl⟩, fun _ => ⟨rfl, rfl, rfl, rfl⟩⟩

/-- C3: one scheduler pass on an active complaint with deadline `d`:
within one day before the deadline at level none it raises to level 1 and
emits the warning record; past the deadline but within two days at level
below 2 it raises to level 2 and emits the supervisor-escalation record;
two or more days past the deadline at level below 3 it raises to level 3 and
emits the admin-escalation record; in every other case it changes nothing and
emits nothing. -/
theorem escalation_pass_cases (now d : Int) (c : Complaint)
    (hact : c.status = .assigned ∨ c.status = .in_progress)
    (hdl : c.slaDeadline = some d) :
    ((d - day ≤ now ∧ now < d ∧ c.escalationLevel = none) →
      escalationPass now c =
        ({ c with escalationLevel := some .level_1, escalatedAt := some now },
          [{ fromLevel := c.escalationLevel, toLevel := .level_1,
             reason := "warning", escalatedAt := now }])) ∧
    ((d ≤ now ∧ now < d + 2 * day ∧ levelNat c.escalationLevel < 2) →
      escalationPass now c =
        ({ c with escalationLevel := some .level_2, escalatedAt := some now },
          [{ fromLevel := c.escalationLevel, toLevel := .level_2,
             reason := "supervisor escalation", escalatedAt := now }])) ∧
    ((d + 2 * day ≤ now ∧ levelNat c.escalationLevel < 3) →
      escalationPass now c =
        ({ c with escalationLevel := some .level_3, escalatedAt := some now },
          [{ fromLevel := c.escalationLevel, toLevel := .level_3,
             reason := "admin escalation", escalatedAt := now }])) ∧
    ((¬(d - day ≤ now ∧ now < d ∧ c.escalationLevel = none) ∧
      ¬(d ≤ now ∧ now < d + 2 * day ∧ levelNat c.escalationLevel < 2) ∧
      ¬(d + 2 * day ≤ now ∧ levelNat c.escalationLevel < 3)) →
      escalationPass now c = (c, [])) := by
  have hday : day = 86400 := rfl
  simp only [escalationPass, hdl, if_pos hact]
  split_ifs with h1 h2 h3 <;>
    refine ⟨fun hw => ?_, fun hw => ?_, fun hw => ?_, fun hw => ?_⟩
  · rfl
  · exact absurd h1.2.1 (by omega)
  · exact absurd h1.2.1 (by omega)
  · exact absurd h1 hw.1
  · exact absurd hw h1
  · rfl
  · exact absurd h2.2.1 (by omega)
  · exact absurd h2 hw.2.1
  · exact absurd hw h1
  · exact absurd hw h2
  · rfl
  · exact absurd h3 hw.2.2
  · exact absurd hw h1
  · exact absurd hw h2
  · exact absurd hw h3
  · rfl

/-- Witness for C3: seed complaint 1 (critical, `assigned`, deadline
`259200 = 3 * day`) one day before its deadline is raised to level 1. -/
theorem escalation_pass_cases_witness :
    (((seedComplaint1 0).status = .assigned ∨
        (seedComplaint1 0).status = .in_progress) ∧
      (seedComplaint1 0).slaDeadline = some 259200) ∧
    (((259200 - day ≤ 172800 ∧ (172800 : Int) < 259200 ∧
        (seedComplaint1 0).escalationLevel = none) →
      escalationPass 172800 (seedComplaint1 0) =
        ({ seedComplaint1 0 with
            escalationLevel := some .level_1
            escalatedAt := some 172800 },
          [{ fromLevel := (seedComplaint1 0).escalationLevel,
             toLevel := .level_1, reason := "warning",
             escalatedAt := 172800 }])) ∧
    (((259200 : Int) ≤ 172800 ∧ (172800 : Int) < 259200 + 2 * day ∧
        levelNat (seedComplaint1 0).escalationLevel < 2) →
      escalationPass 172800 (seedComplaint1 0) =
        ({ seedComplaint1 0 with
            escalationLevel := some .level_2
            escalatedAt := some 172800 },
          [{ fromLevel := (seedComplaint1 0).escalationLevel,
             toLevel := .level_2, reason := "supervisor escalation",
             escalatedAt := 172800 }])) ∧
    ((259200 + 2 * day ≤ 172800 ∧
        levelNat (seedComplaint1 0).escalationLevel < 3) →
      escalationPass 172800 (seedComplaint1 0) =
        ({ seedComplaint1 0 with
            escalationLevel := some .level_3
            escalatedAt := some 172800 },
          [{ fromLevel := (seedComplaint1 0).escalationLevel,
             toLevel := .level_3, reason := "admin escalation",
             escalatedAt := 172800 }])) ∧
    ((¬(259200 - day ≤ 172800 ∧ (172800 : Int) < 259200 ∧
          (seedComplaint1 0).escalationLevel = none) ∧
      ¬((259200 : Int) ≤ 172800 ∧ (172800 : Int) < 259200 + 2 * day ∧
          levelNat (seedComplaint1 0).escalationLevel < 2) ∧
      ¬(259200 + 2 * day ≤ 172800 ∧
          levelNat (seedComplaint1 0).escalationLevel < 3)) →
      escalationPass 172800 (seedComplaint1 0) = (seedComplaint1 0, []))) :=
  ⟨⟨Or.inl rfl, by decide⟩,
    escalation_pass_cases 172800 259200 (seedComplaint1 0)
      (Or.inl rfl) (by decide)⟩

theorem escalationPass_level_mono (now : Int) (c : Complaint) :
    levelNat c.escalationLevel ≤
      levelNat (escalationPass now c).1.escalationLevel := by
  rcases hdl : c.slaDeadline with _ | d <;>
    simp only [escalationPass, hdl] <;> split_ifs <;>
      simp_all [levelNat] <;> omega

theorem escalationPass_idem (now : Int) (c : Complaint) :
    escalationPass now (escalationPass now c).1 =
      ((escalationPass now c).1, []) := by
  have hday : day = 86400 := rfl
  by_cases hact : c.status = .assigned ∨ c.status = .in_progress
  · rcases hdl : c.slaDeadline with _ | d
    · simp [escalationPass, hdl, hact]
    · simp only [escalationPass, hdl, if_pos hact]
      split_ifs with h1 h2 h3 <;>
        · simp only [escalationPass, hdl, if_pos hact]
          split_ifs <;>
            first
              | rfl
              | (exfalso; simp_all [levelNat]; try omega)
  · simp [escalationPass, hact]

/-- C4: across any number of scheduler passes the escalation level is
monotonically non-decreasing, and the pass is idempotent: re-running it with
no time elapsed performs no mutation and emits no additional record. -/
theorem escalation_monotone_and_idempotent :
    (∀ (times : List Int) (c : Complaint),
      levelNat c.escalationLevel ≤
        levelNat (runPasses times c).escalationLevel) ∧
    (∀ (now : Int) (c : Complaint),
      escalationPass now (escalationPass now c).1 =
        ((escalationPass now c).1, [])) := by
  refine ⟨fun times => ?_, escalationPass_idem⟩
  induction times with
  | nil => intro c; exact le_refl _
  | cons t ts ih =>
    intro c
    exact le_trans (escalationPass_level_mono t c)
      (ih (escalationPass t c).1)

theorem charVal_digitChar {d : Nat} (h : d < 10) :
    charVal (Nat.digitChar d) = d := by
  interval_cases d <;> rfl

theorem parse_foldr_ofDigits (L : List Nat) (h : ∀ x ∈ L, x < 10) :
    L.foldr (fun dgt a => 10 * a + charVal (Nat.digitChar dgt)) 0 =
      Nat.ofDigits 10 L := by
  induction L with
  | nil => rfl
  | cons x L ih =>
    rw [List.foldr_cons, Nat.ofDigits_cons,
      ih (fun y hy => h y (List.mem_cons_of_mem _ hy)),
      charVal_digitChar (h x (List.mem_cons_self _ _))]
    omega

theorem parseNat_natRepr (n : Nat) : parseNat (natRepr n).data = n := by
  unfold natRepr
  split_ifs with h
  · subst h; rfl
  · show parseNat ((Nat.digits 10 n).reverse.map Nat.digitChar) = n
    unfold parseNat
    rw [List.foldl_map, List.foldl_reverse]
    have hof := parse_foldr_ofDigits (Nat.digits 10 n)
      (fun x hx => Nat.digits_lt_base (by norm_num) hx)
    simpa [hof] using Nat.ofDigits_digits 10 n

theorem parseNat_replicate_zero_append (k : Nat) (l : List Char) :
    parseNat (List.replicate k '0' ++ l) = parseNat l := by
  induction k with
  | zero => rfl
  | succ k ih =>
    rw [List.replicate_succ, List.cons_append]
    show List.foldl _ (10 * 0 + charVal '0') _ = _
    rw [show (10 * 0 + charVal '0' : Nat) = 0 from rfl]
    exact ih

theorem natRepr_data_length_le {n k : Nat} (h : n < 10 ^ k) (hk : 1 ≤ k) :
    (natRepr n).data.length ≤ k := by
  unfold natRepr
  split_ifs with h0
  · simpa using hk
  · show ((Nat.digits 10 n).reverse.map Nat.digitChar).length ≤ k
    rw [List.length_map, List.length_reverse]
    by_contra hgt
    push_neg at hgt
    have h1 : 10 ^ (Nat.digits 10 n).length ≤ 10 * n :=
      Nat.base_pow_length_digits_le 10 n (by norm_num) h0
    have h2 : 10 ^ (k + 1) ≤ 10 ^ (Nat.digits 10 n).length :=
      Nat.pow_le_pow_right (by norm_num) hgt
    have h3 : 10 * n < 10 * 10 ^ k := by omega
    rw [pow_succ] at h2
    omega

theorem natRepr_data_length_date {d : Nat} (h1 : 10 ^ 7 ≤ d)
    (h2 : d < 10 ^ 8) : (natRepr d).data.length = 8 := by
  have h0 : d ≠ 0 := by intro h; subst h; norm_num at h1
  have hle : (natRepr d).data.length ≤ 8 :=
    natRepr_data_length_le h2 (by norm_num)
  have hge : 8 ≤ (natRepr d).data.length := by
    unfold natRepr
    rw [if_neg h0]
    show 8 ≤ ((Nat.digits 10 d).reverse.map Nat.digitChar).length
    rw [List.length_map, List.length_reverse]
    by_contra hlt
    push_neg at hlt
    have hub := Nat.lt_base_pow_length_digits (b := 10) (m := d) (by norm_num)
    have : d < 10 ^ 7 :=
      lt_of_lt_of_le hub (Nat.pow_le_pow_right (by norm_num) (by omega))
    omega
  omega

theorem parseNat_lpad5 {s : String} (h : s.data.length ≤ 5) :
    parseNat (lpad5 s).data = parseNat s.data := by
  unfold lpad5
  split_ifs with h5
  · show parseNat (s.data.take 5) = _
    rw [List.take_of_length_le h]
  · show parseNat (List.replicate (5 - s.length) '0' ++ s.data) = _
    exact parseNat_replicate_zero_append _ _

theorem parseNat_seqComponent {c : Nat} (h : c + 1 ≤ 99999) :
    parseNat (seqComponent c).data = c + 1 := by
  unfold seqComponent
  rw [parseNat_lpad5 (natRepr_data_length_le (by omega) (by norm_num)),
    parseNat_natRepr]

theorem generateComplaintNumber_inj (d1 d2 c1 c2 : Nat)
    (hd1 : 10 ^ 7 ≤ d1) (hd1u : d1 < 10 ^ 8)
    (hd2 : 10 ^ 7 ≤ d2) (hd2u : d2 < 10 ^ 8)
    (hc2 : c2 + 1 ≤ 99999) (hlt : c1 < c2) :
    generateComplaintNumber d1 c1 ≠ generateComplaintNumber d2 c2 := by
  intro heq
  have hdata := congrArg String.data heq
  simp only [generateComplaintNumber, String.data_append] at hdata
  have hinj := List.append_inj hdata (by
    simp [List.length_append, natRepr_data_length_date hd1 hd1u,
      natRepr_data_length_date hd2 hd2u])
  have hseq : (seqComponent c1).data = (seqComponent c2).data := hinj.2
  have hp := parseNat_seqComponent (c := c1) (by omega)
  rw [hseq, parseNat_seqComponent (c := c2) hc2] at hp
  omega

/-- C7 counterexample: two complaints created concurrently both have the
trigger evaluate `SELECT COUNT(*) + 1` against the same snapshot, so both
receive the same complaint number — here both get `AQS-20260225-00001` — and
the generated numbers are not duplicate-free although the complaints are
distinct. -/
theorem concurrent_complaint_numbers_collide :
    concurrentInsertPair 20260225 [] =
      ["AQS-20260225-00001", "AQS-20260225-00001"] ∧
    ¬ (concurrentInsertPair 20260225 []).Nodup := by
  have h : Nat.digits 10 20260225 = [5, 2, 2, 0, 6, 2, 0, 2] := by norm_num
  have h1 : Nat.digits 10 1 = [1] := by norm_num
  constructor
  · simp only [concurrentInsertPair, List.nil_append, List.length_nil,
      generateComplaintNumber, natRepr, seqComponent, lpad5, h, h1]
    rfl
  · simp [concurrentInsertPair]

/-- C7 corrected: when inserts execute serially — each trigger seeing every
previously inserted row — the global `COUNT(*) + 1` sequence strictly
increases, so two numbers generated at different counts (within the 5-digit
LPAD capacity) always differ, whatever valid dates they carry, and the
sequence number embedded in the generated number is strictly increasing in
assignment order; with concurrent inserts reading the same snapshot this
uniqueness fails. -/
theorem serial_complaint_numbers_unique (d1 d2 c1 c2 : Nat)
    (hd1 : 10 ^ 7 ≤ d1) (hd1u : d1 < 10 ^ 8)
    (hd2 : 10 ^ 7 ≤ d2) (hd2u : d2 < 10 ^ 8)
    (hc2 : c2 + 1 ≤ 99999) (hlt : c1 < c2) :
    generateComplaintNumber d1 c1 ≠ generateComplaintNumber d2 c2 ∧
    parseNat (seqComponent c1).data < parseNat (seqComponent c2).data := by
  refine ⟨generateComplaintNumber_inj d1 d2 c1 c2 hd1 hd1u hd2 hd2u hc2 hlt, ?_⟩
  rw [parseNat_seqComponent (c := c1) (by omega),
    parseNat_seqComponent (c := c2) hc2]
  omega

/-- Witness for C7: the first and second serial insert of 2026-02-25 get
distinct numbers with increasing sequence components. -/
theorem serial_complaint_numbers_unique_witness :
    ((10 ^ 7 ≤ 20260225 ∧ 20260225 < 10 ^ 8) ∧ 1 + 1 ≤ 99999 ∧ 0 < 1) ∧
    (generateComplaintNumber 20260225 0 ≠ generateComplaintNumber 20260225 1 ∧
      parseNat (seqComponent 0).data < parseNat (seqComponent 1).data) :=
  ⟨⟨⟨by norm_num, by norm_num⟩, by norm_num, by norm_num⟩,
    serial_complaint_numbers_unique 20260225 20260225 0 1 (by norm_num)
      (by norm_num) (by norm_num) (by norm_num) (by norm_num) (by norm_num)⟩

/-- C10: the complaint-number trigger fires exactly when the supplied
`complaint_number` is NULL or the empty string; an insert supplying a
non-empty number keeps that number (and the whole row) unchanged, and when
the trigger fires it modifies no column other than `complaint_number`. -/
theorem complaint_number_trigger_frame (today visibleCount : Nat)
    (row : Complaint) :
    (∀ s : String, row.complaintNumber = some s → s ≠ "" →
      applyComplaintNumberTrigger today visibleCount row = row) ∧
    ((row.complaintNumber = none ∨ row.complaintNumber = some "") →
      applyComplaintNumberTrigger today visibleCount row =
        { row with
            complaintNumber := some (generateComplaintNumber today visibleCount) }) ∧
    ((applyComplaintNumberTrigger today visibleCount row).citizenId = row.citizenId ∧
      (applyComplaintNumberTrigger today visibleCount row).waterBodyId = row.waterBodyId ∧
      (applyComplaintNumberTrigger today visibleCount row).category = row.category ∧
      (applyComplaintNumberTrigger today visibleCount row).description = row.description ∧
      (applyComplaintNumberTrigger today visibleCount row).latitude = row.latitude ∧
      (applyComplaintNumberTrigger today visibleCount row).longitude = row.longitude ∧
      (applyComplaintNumberTrigger today visibleCount row).aiViolationType = row.aiViolationType ∧
      (applyComplaintNumberTrigger today visibleCount row).aiConfidenceScore = row.aiConfidenceScore ∧
      (applyComplaintNumberTrigger today visibleCount row).aiUrgency = row.aiUrgency ∧
      (applyComplaintNumberTrigger today visibleCount row).aiProcessedAt = row.aiProcessedAt ∧
      (applyComplaintNumberTrigger today visibleCount row).severityScore = row.severityScore ∧
      (applyComplaintNumberTrigger today visibleCount row).severityPriority = row.severityPriority ∧
      (applyComplaintNumberTrigger today visibleCount row).status = row.status ∧
      (applyComplaintNumberTrigger today visibleCount row).assignedOfficerId = row.assignedOfficerId ∧
      (applyComplaintNumberTrigger today visibleCount row).slaDeadline = row.slaDeadline ∧
      (applyComplaintNumberTrigger today visibleCount row).resolvedAt = row.resolvedAt ∧
      (applyComplaintNumberTrigger today visibleCount row).resolutionNotes = row.resolutionNotes ∧
      (applyComplaintNumberTrigger today visibleCount row).escalationLevel = row.escalationLevel ∧
      (applyComplaintNumberTrigger today visibleCount row).escalatedAt = row.escalatedAt ∧
      (applyComplaintNumberTrigger today visibleCount row).createdAt = row.createdAt) := by
  refine ⟨?_, ?_, ?_⟩
  · intro s hs hne
    unfold applyComplaintNumberTrigger
    rw [hs]
    simp [hne]
  · intro h
    unfold applyComplaintNumberTrigger
    rw [if_pos h]
  · unfold applyComplaintNumberTrigger
    split_ifs <;> simp

/-- Witness for C10: seed complaint 1 already carries a non-empty number and
is untouched; a fresh row with a NULL number gets exactly the generated
number. -/
theorem complaint_number_trigger_frame_witness :
    ((seedComplaint1 0).complaintNumber = some "AQS-20260225-00001" ∧
      "AQS-20260225-00001" ≠ "" ∧
      applyComplaintNumberTrigger 20260225 3 (seedComplaint1 0) =
        seedComplaint1 0) ∧
    ((newComplaintRow "cit" .lake 0 0 none 0).complaintNumber = none ∧
      applyComplaintNumberTrigger 20260225 3 (newComplaintRow "cit" .lake 0 0 none 0) =
        { newComplaintRow "cit" .lake 0 0 none 0 with
            complaintNumber := some (generateComplaintNumber 20260225 3) }) :=
  ⟨⟨rfl, by decide,
      (complaint_number_trigger_frame 20260225 3 (seedComplaint1 0)).1
        "AQS-20260225-00001" rfl (by decide)⟩,
    ⟨rfl, (complaint_number_trigger_frame 20260225 3
        (newComplaintRow "cit" .lake 0 0 none 0)).2.1 (Or.inl rfl)⟩⟩

end AquaSentinel
